import Mathlib

/-!
PotatoDiseaseClassifier: the client-side workflow of `Frontend.jsx`.

A shallow embedding of the React component `PotatoDiseaseClassifier`
(`modelFrontend/src/screens/Frontend.jsx`).  The component's `useState` cells are
the fields of `State`; the parts of the browser it talks to (the object-URL
store behind `URL.createObjectURL`, the outstanding `fetch` calls and the
console) are the remaining fields of `World`.  Every event handler is a
function `World → World`; the asynchronous `classifyImage` is split at its
`await` into the part that runs on the click and the part that runs when the
request settles.  The results section of the returned JSX is the function
`renderResults` of the `prediction` cell.
-/

namespace PotatoDiseaseClassifier

/-! ## Data model -/

/-- A browser `File`, reduced to the two properties the component reads. -/
structure File where
  name : String
  type : String
deriving DecidableEq, Repr

/-- The values `response.json()` can produce.  A number is kept as a decimal
`mantissa * 10 ^ exponent`; its value plays no part in the workflow. -/
inductive Json where
  | null : Json
  | bool (b : Bool) : Json
  | num (mantissa : Int) (exponent : Int) : Json
  | str (s : String) : Json
  | arr (items : List Json) : Json
  | obj (fields : List (String × Json)) : Json

/-- The six `useState` cells of the component (source lines 4-9).  `null` is
`none`, except for `prediction`, which holds a JavaScript value and therefore
uses `Json.null`.  A preview URL is the string returned by
`URL.createObjectURL`, identified here by its index in the object-URL store. -/
structure State where
  selectedFile : Option File
  previewUrl : Option Nat
  prediction : Json
  loading : Bool
  error : Option String
  isDragOver : Bool

/-- The document's object-URL store.  `entries` lists the files behind every
URL minted so far, in order, so that URL `n` is `entries[n]`; `revoked` lists
the URLs handed to `URL.revokeObjectURL`. -/
structure BlobStore where
  entries : List File
  revoked : List Nat

/-- What a `catch (err)` can receive in `classifyImage`. -/
inductive Thrown where
  | networkFailure : Thrown
  | error (message : String) : Thrown
  | malformedJson : Thrown
deriving DecidableEq, Repr

/-- How the request of `classifyImage` settles: the `fetch` promise rejects, or
a response arrives with a status code and a body; `body` is what
`response.json()` resolves to, `none` when it rejects. -/
inductive FetchOutcome where
  | rejected : FetchOutcome
  | response (status : Nat) (body : Option Json) : FetchOutcome

/-- The component together with the browser state it reads and writes.
`inflight` holds the file of every request that has been sent and has not yet
settled, oldest first; `console` holds what `console.error` was given. -/
structure World where
  state : State
  blobs : BlobStore
  inflight : List File
  console : List Thrown

/-! ## Browser primitives -/

/-- JavaScript `s.startsWith(pre)`. -/
def startsWith (s pre : String) : Bool :=
  pre.data.isPrefixOf s.data

/-- The call `URL.createObjectURL(file)`: mints the next URL and records the file
behind it. -/
def createObjectURL (store : BlobStore) (file : File) : Nat × BlobStore :=
  (store.entries.length, { store with entries := store.entries ++ [file] })

/-- The call `URL.revokeObjectURL(url)`.  The component never calls it. -/
def revokeObjectURL (store : BlobStore) (url : Nat) : BlobStore :=
  { store with revoked := url :: store.revoked }

/-- The file behind an object URL, if the URL was ever minted. -/
def BlobStore.lookup (store : BlobStore) (url : Nat) : Option File :=
  store.entries.get? url

/-- The object URLs that are minted and not revoked: the ones still holding
their file alive. -/
def BlobStore.live (store : BlobStore) : List Nat :=
  (List.range store.entries.length).filter (fun u => !store.revoked.contains u)

/-- The getter `response.ok`: the status is in the range 200-299. -/
def responseOk (status : Nat) : Bool :=
  decide (200 ≤ status) && decide (status ≤ 299)

/-! ## Event handlers -/

/-- The message of the `else` branch of `handleFileSelect` (line 19). -/
def invalidFileMessage : String := "Please select a valid image file"

/-- The message of the `catch` block of `classifyImage` (line 68). -/
def classifyFailedMessage : String :=
  "Failed to classify image. Make sure the backend is running on http://localhost:8000"

/-- The message of the error thrown at line 62. -/
def httpErrorMessage (status : Nat) : String :=
  s!"HTTP error! status: {status}"

/-- The handler `handleFileSelect` (lines 12-21).  `file` is `none` for
`undefined`, which `files[0]` yields on an empty file list. -/
def handleFileSelect (file : Option File) (w : World) : World :=
  match file with
  | some f =>
    if startsWith f.type "image/" then
      let minted := createObjectURL w.blobs f
      { w with
        state := { w.state with
          selectedFile := some f
          previewUrl := some minted.1
          prediction := Json.null
          error := none }
        blobs := minted.2 }
    else
      { w with state := { w.state with error := some invalidFileMessage } }
  | none =>
    { w with state := { w.state with error := some invalidFileMessage } }

/-- The handler `handleDrop` (lines 23-28). -/
def handleDrop (file : Option File) (w : World) : World :=
  handleFileSelect file { w with state := { w.state with isDragOver := false } }

/-- The handler `handleDragOver` (lines 30-33). -/
def handleDragOver (w : World) : World :=
  { w with state := { w.state with isDragOver := true } }

/-- The handler `handleDragLeave` (lines 35-38). -/
def handleDragLeave (w : World) : World :=
  { w with state := { w.state with isDragOver := false } }

/-- The handler `handleFileInputChange` (lines 40-43). -/
def handleFileInputChange (file : Option File) (w : World) : World :=
  handleFileSelect file w

/-- The function `classifyImage` up to its `await fetch(...)` (lines 45-59):
returns at once without a selected file, otherwise resets the three cells and
sends the request. -/
def classifyImage (w : World) : World :=
  match w.state.selectedFile with
  | none => w
  | some f =>
    { w with
      state := { w.state with loading := true, error := none, prediction := Json.null }
      inflight := w.inflight ++ [f] }

/-- What the `try` block of `classifyImage` evaluates to once the request has
settled (lines 56-65): the parsed body, or the value thrown. -/
def tryBlock (outcome : FetchOutcome) : Except Thrown Json :=
  match outcome with
  | FetchOutcome.rejected => Except.error Thrown.networkFailure
  | FetchOutcome.response status body =>
    if responseOk status then
      match body with
      | some data => Except.ok data
      | none => Except.error Thrown.malformedJson
    else
      Except.error (Thrown.error (httpErrorMessage status))

/-- The function `classifyImage` after its `await`s (lines 61-72): `setPrediction`
on success, `setError` and `console.error` in the `catch`, `setLoading(false)`
in the `finally`.  It reads no state cell. -/
def classifyImageResume (outcome : FetchOutcome) (w : World) : World :=
  match tryBlock outcome with
  | Except.ok data =>
    { w with state := { w.state with prediction := data, loading := false } }
  | Except.error err =>
    { w with
      state := { w.state with error := some classifyFailedMessage, loading := false }
      console := w.console ++ [err] }

/-- The `onClick` of the Clear button (lines 150-155). -/
def handleClear (w : World) : World :=
  { w with
    state := { w.state with
      selectedFile := none
      previewUrl := none
      prediction := Json.null
      error := none } }

/-- The function `getResultColor` (lines 75-82). -/
def getResultColor (className : String) : String :=
  match className with
  | "Healthy" => "#48bb78"
  | "Early Blight" => "#ed8936"
  | "Late Blight" => "#e53e3e"
  | _ => "#667eea"

/-- The function `getResultEmoji` (lines 84-91). -/
def getResultEmoji (className : String) : String :=
  match className with
  | "Healthy" => "🌿"
  | "Early Blight" => "🦠"
  | "Late Blight" => "🍄"
  | _ => "🔍"

/-! ## Rendering of the results section -/

/-- What rendering the results section can throw. -/
inductive RenderError where
  | typeError : RenderError
  | invalidChild : RenderError
deriving DecidableEq, Repr

/-- One item of the `All Predictions` grid (lines 201-218): the label with the
icon and the bar colour computed from it. -/
structure PredictionItem where
  className : String
  emoji : String
  backgroundColor : String
deriving DecidableEq, Repr

/-- The results section as rendered (lines 174-222): the border colour and icon
of the main card, the value shown as the predicted label (`none` for
`undefined`), and the grid items.  The percentage texts made by `toFixed` are
floating-point formatting and are left out. -/
structure ResultsView where
  borderColor : String
  emoji : String
  label : Option Json
  items : List PredictionItem

/-- JavaScript truthiness of a parsed value, as `prediction && ...` tests it. -/
def Json.truthy (j : Json) : Bool :=
  match j with
  | Json.null => false
  | Json.bool b => b
  | Json.num mantissa _ => mantissa != 0
  | Json.str s => s != ""
  | Json.arr _ => true
  | Json.obj _ => true

/-- The property read `j.key` for one of the keys `chosen_class`, `confidence`,
`predictions`; `none` is `undefined`.  Only an object can have such a
property; the fields of a parsed object have distinct keys. -/
def Json.property (j : Json) (key : String) : Option Json :=
  match j with
  | Json.obj fields => fields.lookup key
  | _ => none

/-- The keys of `Object.entries(v)`, in order, or the `TypeError` it throws on
`undefined` and `null`.  An array and a string have their indices as keys, a
number and a boolean have none. -/
def objectEntryKeys (v : Option Json) : Except RenderError (List String) :=
  match v with
  | none => Except.error RenderError.typeError
  | some Json.null => Except.error RenderError.typeError
  | some (Json.obj fields) => Except.ok (fields.map (fun field => field.1))
  | some (Json.arr items) => Except.ok ((List.range items.length).map toString)
  | some (Json.str s) => Except.ok ((List.range s.length).map toString)
  | some (Json.bool _) => Except.ok []
  | some (Json.num _ _) => Except.ok []

mutual
/-- Whether React accepts a value as a child: an object is refused
(`Objects are not valid as a React child`), an array is accepted when all its
items are. -/
def Json.validChild (j : Json) : Bool :=
  match j with
  | Json.obj _ => false
  | Json.arr items => Json.validChildren items
  | _ => true
/-- Whether React accepts every value of a list as a child. -/
def Json.validChildren (items : List Json) : Bool :=
  match items with
  | [] => true
  | item :: rest => item.validChild && Json.validChildren rest
end

/-- The call `getResultColor(v)` on an arbitrary value: the `switch` compares
with `===`, so a value that is not a string takes the `default`. -/
def classColor (v : Option Json) : String :=
  match v with
  | some (Json.str className) => getResultColor className
  | _ => getResultColor ""

/-- The call `getResultEmoji(v)` on an arbitrary value, as `classColor`. -/
def classEmoji (v : Option Json) : String :=
  match v with
  | some (Json.str className) => getResultEmoji className
  | _ => getResultEmoji ""

/-- The results section of the returned JSX (lines 173-223) for a given
`prediction`: `none` when `prediction` is falsy and the section is left out,
otherwise the section, or what building it throws.  The component function
evaluates `Object.entries(prediction.predictions)` first (line 200); React then
renders `prediction.chosen_class` as a child (line 189). -/
def renderResults (prediction : Json) : Except RenderError (Option ResultsView) :=
  if prediction.truthy then
    let chosen := prediction.property "chosen_class"
    match objectEntryKeys (prediction.property "predictions") with
    | Except.error err => Except.error err
    | Except.ok keys =>
      if (chosen.map Json.validChild).getD true then
        Except.ok (some
          { borderColor := classColor chosen
            emoji := classEmoji chosen
            label := chosen
            items := keys.map (fun key =>
              { className := key
                emoji := getResultEmoji key
                backgroundColor := getResultColor key }) })
      else
        Except.error RenderError.invalidChild
  else
    Except.ok none

/-! ## The component as a transition system -/

/-- Everything that can happen to the mounted component: the user's gestures and
the settling of the oldest outstanding request. -/
inductive Event where
  | drop (file : Option File) : Event
  | dragOver : Event
  | dragLeave : Event
  | fileInputChange (file : Option File) : Event
  | clickClassify : Event
  | clickClear : Event
  | settle (outcome : FetchOutcome) : Event

/-- One event.  The two buttons exist only while `previewUrl` is set (line 129)
and the Classify button is `disabled` while `loading` (line 137), so a click
that the rendered page cannot deliver changes nothing.  A `settle` without an
outstanding request cannot happen and changes nothing. -/
def step (e : Event) (w : World) : World :=
  match e with
  | Event.drop file => handleDrop file w
  | Event.dragOver => handleDragOver w
  | Event.dragLeave => handleDragLeave w
  | Event.fileInputChange file => handleFileInputChange file w
  | Event.clickClassify =>
    if w.state.previewUrl.isSome && !w.state.loading then classifyImage w else w
  | Event.clickClear =>
    if w.state.previewUrl.isSome then handleClear w else w
  | Event.settle outcome =>
    match w.inflight with
    | [] => w
    | _ :: rest => classifyImageResume outcome { w with inflight := rest }

/-- The freshly mounted component (the `useState` initial values) in a document
with no object URL, no request and an empty console. -/
def init : World :=
  { state :=
      { selectedFile := none
        previewUrl := none
        prediction := Json.null
        loading := false
        error := none
        isDragOver := false }
    blobs := { entries := [], revoked := [] }
    inflight := []
    console := [] }

/-- The world after a sequence of events, first event first. -/
def run (events : List Event) (w : World) : World :=
  events.foldl (fun acc e => step e acc) w

/-- An event whose file is handed to `handleFileSelect` and accepted there. -/
def Event.isAcceptedAcquire (e : Event) : Bool :=
  match e with
  | Event.drop (some f) => startsWith f.type "image/"
  | Event.fileInputChange (some f) => startsWith f.type "image/"
  | _ => false

/-! ## Sample inputs -/

/-- A PNG photograph of a leaf. -/
def leafPng : File := { name := "leaf.png", type := "image/png" }

/-- A second image. -/
def leafJpg : File := { name := "leaf2.jpg", type := "image/jpeg" }

/-- A file that is not an image. -/
def notesPdf : File := { name := "notes.pdf", type := "application/pdf" }

/-- The response body of the spec's worked example. -/
def healthyBody : Json :=
  Json.obj
    [ ("chosen_class", Json.str "Healthy"),
      ("confidence", Json.num 92 (-2)),
      ("predictions",
        Json.obj
          [ ("Healthy", Json.num 92 (-2)),
            ("Early Blight", Json.num 5 (-2)),
            ("Late Blight", Json.num 3 (-2)) ]) ]

/-! ## Predicates on worlds and bodies -/

/-- The `loading` flag tracks the outstanding request: the request list has one
entry while `loading` and none otherwise, and no result is held while
`loading`. -/
def Consistent (w : World) : Prop :=
  w.inflight.length = (if w.state.loading then 1 else 0) ∧
  (w.state.loading = true → w.state.prediction = Json.null)

/-- While a request is outstanding the only error that can be shown is the
invalid-file message, and an error other than the invalid-file message is
never held together with a result. -/
def Exclusive (w : World) : Prop :=
  (w.state.loading = true →
    w.state.error = none ∨ w.state.error = some invalidFileMessage) ∧
  (w.state.error = none ∨ w.state.error = some invalidFileMessage ∨
    w.state.prediction = Json.null)

/-- The preview URL, when set, is the URL minted last. -/
def PreviewIsLast (w : World) : Prop :=
  ∀ u, w.state.previewUrl = some u → u + 1 = w.blobs.entries.length

/-- The shape the spec gives the success body (its section 6): an object whose
`chosen_class` is a string, whose `confidence` is a number and whose
`predictions` is an object with numbers as values.  This follows the spec's
words; no function of the component computes it. -/
def specExpectedShape (body : Json) : Bool :=
  match body with
  | Json.obj fields =>
    (match fields.lookup "chosen_class" with
      | some (Json.str _) => true
      | _ => false) &&
    (match fields.lookup "confidence" with
      | some (Json.num _ _) => true
      | _ => false) &&
    (match fields.lookup "predictions" with
      | some (Json.obj entries) =>
        entries.all (fun entry =>
          match entry.2 with
          | Json.num _ _ => true
          | _ => false)
      | _ => false)
  | _ => false

/-- A success body of the wrong shape: an object with a single `detail` field. -/
def detailBody : Json :=
  Json.obj [("detail", Json.str "no leaf found")]

/-! ## Invariants of the reachable worlds -/

/-- Running no event changes nothing. -/
theorem run_nil (w : World) : run [] w = w := rfl

/-- Running a sequence of events is running its first event, then the rest. -/
theorem run_cons (e : Event) (events : List Event) (w : World) :
    run (e :: events) w = run events (step e w) := rfl

/-- The freshly mounted component is consistent. -/
theorem init_consistent : Consistent init := by
  simp [Consistent, init]

/-- The freshly mounted component holds neither error nor result. -/
theorem init_exclusive : Exclusive init := by
  simp [Exclusive, init]

/-- A selection, accepted or refused, keeps `Consistent`. -/
theorem handleFileSelect_consistent (file : Option File) (w : World) (h : Consistent w) :
    Consistent (handleFileSelect file w) := by
  obtain ⟨h1, h2⟩ := h
  unfold handleFileSelect
  split
  · split
    · exact ⟨h1, fun _ => rfl⟩
    · exact ⟨h1, h2⟩
  · exact ⟨h1, h2⟩

/-- Every event keeps `Consistent`. -/
theorem step_consistent (e : Event) (w : World) (h : Consistent w) :
    Consistent (step e w) := by
  cases e with
  | drop file => exact handleFileSelect_consistent file _ h
  | dragOver => exact h
  | dragLeave => exact h
  | fileInputChange file => exact handleFileSelect_consistent file w h
  | clickClassify =>
    obtain ⟨h1, h2⟩ := h
    simp only [step]
    split
    · rename_i hc
      simp only [Bool.and_eq_true, Bool.not_eq_true'] at hc
      unfold classifyImage
      split
      · exact ⟨h1, h2⟩
      · rw [hc.2] at h1
        simp at h1
        simp [Consistent, h1]
    · exact ⟨h1, h2⟩
  | clickClear =>
    obtain ⟨h1, h2⟩ := h
    simp only [step]
    split
    · exact ⟨h1, fun _ => rfl⟩
    · exact ⟨h1, h2⟩
  | settle outcome =>
    obtain ⟨h1, h2⟩ := h
    simp only [step]
    split
    · exact ⟨h1, h2⟩
    · rename_i x rest hw
      have hrest : rest = [] := by
        rw [hw] at h1
        cases hl : w.state.loading <;> simp [hl] at h1
        exact h1
      unfold classifyImageResume
      split <;> simp [Consistent, hrest]

/-- Every sequence of events keeps `Consistent`. -/
theorem run_consistent (events : List Event) (w : World) (h : Consistent w) :
    Consistent (run events w) := by
  induction events generalizing w with
  | nil => exact h
  | cons e rest ih => exact ih (step e w) (step_consistent e w h)

/-- A selection, accepted or refused, ends in an `Exclusive` world. -/
theorem handleFileSelect_exclusive (file : Option File) (w : World) :
    Exclusive (handleFileSelect file w) := by
  unfold handleFileSelect
  split
  · split
    · exact ⟨fun _ => Or.inl rfl, Or.inl rfl⟩
    · exact ⟨fun _ => Or.inr rfl, Or.inr (Or.inl rfl)⟩
  · exact ⟨fun _ => Or.inr rfl, Or.inr (Or.inl rfl)⟩

/-- Every event keeps `Exclusive` in a consistent world. -/
theorem step_exclusive (e : Event) (w : World)
    (hc : Consistent w) (h : Exclusive w) : Exclusive (step e w) := by
  cases e with
  | drop file => exact handleFileSelect_exclusive file _
  | dragOver => exact h
  | dragLeave => exact h
  | fileInputChange file => exact handleFileSelect_exclusive file w
  | clickClassify =>
    simp only [step]
    split
    · unfold classifyImage
      split
      · exact h
      · exact ⟨fun _ => Or.inl rfl, Or.inl rfl⟩
    · exact h
  | clickClear =>
    simp only [step]
    split
    · exact ⟨fun _ => Or.inl rfl, Or.inl rfl⟩
    · exact h
  | settle outcome =>
    obtain ⟨h1, h2⟩ := h
    simp only [step]
    split
    · exact ⟨h1, h2⟩
    · rename_i x rest hw
      have hl : w.state.loading = true := by
        have := hc.1
        rw [hw] at this
        cases hl : w.state.loading <;> simp [hl] at this
        rfl
      unfold classifyImageResume
      split
      · refine ⟨fun hf => ?_, ?_⟩
        · simp at hf
        · rcases h1 hl with he | he
          · exact Or.inl he
          · exact Or.inr (Or.inl he)
      · refine ⟨fun hf => ?_, Or.inr (Or.inr (hc.2 hl))⟩
        simp at hf

/-- Every sequence of events keeps `Exclusive` in a consistent world. -/
theorem run_exclusive (events : List Event) (w : World)
    (hc : Consistent w) (h : Exclusive w) : Exclusive (run events w) := by
  induction events generalizing w with
  | nil => exact h
  | cons e rest ih =>
    exact ih (step e w) (step_consistent e w hc) (step_exclusive e w hc h)

/-- No handler revokes an object URL, and exactly the accepted selections mint
one. -/
theorem handleFileSelect_blobs (file : Option File) (w : World) :
    (handleFileSelect file w).blobs.revoked = w.blobs.revoked ∧
    (handleFileSelect file w).blobs.entries.length =
      w.blobs.entries.length +
        (match file with
          | some f => if startsWith f.type "image/" then 1 else 0
          | none => 0) ∧
    (∀ u, (handleFileSelect file w).state.previewUrl = some u →
      (∀ v, w.state.previewUrl = some v → v + 1 = w.blobs.entries.length) →
      u + 1 = (handleFileSelect file w).blobs.entries.length) := by
  cases file with
  | none =>
    refine ⟨rfl, rfl, ?_⟩
    intro u hu hw
    exact hw u hu
  | some f =>
    by_cases hf : startsWith f.type "image/" = true
    · simp [handleFileSelect, hf, createObjectURL]
    · simp only [Bool.not_eq_true] at hf
      simp only [handleFileSelect, hf]
      refine ⟨rfl, rfl, ?_⟩
      intro u hu hw
      exact hw u hu

/-- What one event does to the object-URL store. -/
theorem step_blobs (e : Event) (w : World) :
    (step e w).blobs.revoked = w.blobs.revoked ∧
    (step e w).blobs.entries.length =
      w.blobs.entries.length + (if e.isAcceptedAcquire then 1 else 0) ∧
    (PreviewIsLast w → PreviewIsLast (step e w)) := by
  cases e with
  | drop file =>
    have h := handleFileSelect_blobs file { w with state := { w.state with isDragOver := false } }
    refine ⟨h.1, ?_, fun hw u hu => h.2.2 u hu hw⟩
    rw [show (step (Event.drop file) w) = handleFileSelect file
      { w with state := { w.state with isDragOver := false } } from rfl, h.2.1]
    cases file with
    | none => rfl
    | some f => cases hf : startsWith f.type "image/" <;> simp [Event.isAcceptedAcquire, hf]
  | dragOver => exact ⟨rfl, rfl, fun hw => hw⟩
  | dragLeave => exact ⟨rfl, rfl, fun hw => hw⟩
  | fileInputChange file =>
    have h := handleFileSelect_blobs file w
    refine ⟨h.1, ?_, fun hw u hu => h.2.2 u hu hw⟩
    rw [show (step (Event.fileInputChange file) w) = handleFileSelect file w from rfl, h.2.1]
    cases file with
    | none => rfl
    | some f => cases hf : startsWith f.type "image/" <;> simp [Event.isAcceptedAcquire, hf]
  | clickClassify =>
    simp only [step]
    split
    · unfold classifyImage
      split
      · exact ⟨rfl, rfl, fun hw => hw⟩
      · exact ⟨rfl, rfl, fun hw => hw⟩
    · exact ⟨rfl, rfl, fun hw => hw⟩
  | clickClear =>
    simp only [step]
    split
    · refine ⟨rfl, rfl, fun _ u hu => ?_⟩
      simp [handleClear] at hu
    · exact ⟨rfl, rfl, fun hw => hw⟩
  | settle outcome =>
    simp only [step]
    split
    · exact ⟨rfl, rfl, fun hw => hw⟩
    · unfold classifyImageResume
      split
      · exact ⟨rfl, rfl, fun hw => hw⟩
      · exact ⟨rfl, rfl, fun hw => hw⟩

/-- What a sequence of events does to the object-URL store. -/
theorem run_blobs (events : List Event) (w : World) :
    (run events w).blobs.revoked = w.blobs.revoked ∧
    (run events w).blobs.entries.length =
      w.blobs.entries.length + events.countP Event.isAcceptedAcquire ∧
    (PreviewIsLast w → PreviewIsLast (run events w)) := by
  induction events generalizing w with
  | nil => exact ⟨rfl, rfl, fun hw => hw⟩
  | cons e rest ih =>
    obtain ⟨r1, r2, r3⟩ := ih (step e w)
    obtain ⟨s1, s2, s3⟩ := step_blobs e w
    refine ⟨by rw [run_cons, r1, s1], ?_, fun hw => r3 (s3 hw)⟩
    rw [run_cons, r2, s2, List.countP_cons]
    omega

/-! ## Single event handlers -/

/-- C1: for every world and every candidate file whose declared type starts with
`image/`, `handleFileSelect` ends with the candidate as `selectedFile`, with
`previewUrl` a reference minted by this call (the one entry the call appends to
the object-URL store: unknown to the store before, standing for the candidate
after), with `prediction` null and with `error` null. -/
theorem handleFileSelect_accepts_image (w : World) (f : File)
    (h : startsWith f.type "image/" = true) :
    (handleFileSelect (some f) w).state.selectedFile = some f ∧
    (handleFileSelect (some f) w).state.previewUrl = some w.blobs.entries.length ∧
    w.blobs.lookup w.blobs.entries.length = none ∧
    (handleFileSelect (some f) w).blobs.lookup w.blobs.entries.length = some f ∧
    (handleFileSelect (some f) w).blobs.entries = w.blobs.entries ++ [f] ∧
    (handleFileSelect (some f) w).state.prediction = Json.null ∧
    (handleFileSelect (some f) w).state.error = none := by
  simp [handleFileSelect, h, createObjectURL, BlobStore.lookup]

/-- Witness for C1: a PNG is accepted over a state that holds an earlier result
and an earlier error. -/
theorem handleFileSelect_accepts_image_witness :
    startsWith leafPng.type "image/" = true ∧
    (handleFileSelect (some leafPng)
      { init with state := { init.state with
          prediction := healthyBody, error := some invalidFileMessage } }).state.selectedFile
      = some leafPng :=
  ⟨by decide, (handleFileSelect_accepts_image _ leafPng (by decide)).1⟩

/-- C2: for every world and every candidate that is no file at all or whose
declared type does not start with `image/`, `handleFileSelect` keeps
`selectedFile` and `previewUrl`, mints no object URL, and sets `error` to the
invalid-file message. -/
theorem handleFileSelect_rejects_other (w : World) (file : Option File)
    (h : ∀ f, file = some f → startsWith f.type "image/" = false) :
    (handleFileSelect file w).state.selectedFile = w.state.selectedFile ∧
    (handleFileSelect file w).state.previewUrl = w.state.previewUrl ∧
    (handleFileSelect file w).blobs = w.blobs ∧
    (handleFileSelect file w).state.error = some "Please select a valid image file" := by
  cases file with
  | none => simp [handleFileSelect, invalidFileMessage]
  | some f => simp [handleFileSelect, h f rfl, invalidFileMessage]

/-- Witness for C2: a PDF is refused while a PNG is selected, and the PNG stays
selected. -/
theorem handleFileSelect_rejects_other_witness :
    (∀ f, some notesPdf = some f → startsWith f.type "image/" = false) ∧
    (handleFileSelect (some notesPdf)
      (handleFileSelect (some leafPng) init)).state.selectedFile = some leafPng :=
  ⟨by intro f hf; cases hf; decide,
   (handleFileSelect_rejects_other (handleFileSelect (some leafPng) init) (some notesPdf)
      (by intro f hf; cases hf; decide)).1⟩

/-- C9: `getResultColor` and `getResultEmoji` send the three known labels to
their table entries and every other string to the default colour `#667eea` and
the default icon; being functions on all strings, they never fail. -/
theorem presentation_mapper_table :
    getResultColor "Healthy" = "#48bb78" ∧ getResultEmoji "Healthy" = "🌿" ∧
    getResultColor "Early Blight" = "#ed8936" ∧ getResultEmoji "Early Blight" = "🦠" ∧
    getResultColor "Late Blight" = "#e53e3e" ∧ getResultEmoji "Late Blight" = "🍄" ∧
    ∀ className : String,
      className ≠ "Healthy" → className ≠ "Early Blight" → className ≠ "Late Blight" →
      getResultColor className = "#667eea" ∧ getResultEmoji className = "🔍" := by
  refine ⟨by decide, by decide, by decide, by decide, by decide, by decide, ?_⟩
  intro className h1 h2 h3
  constructor
  · unfold getResultColor
    split <;> first | rfl | contradiction
  · unfold getResultEmoji
    split <;> first | rfl | contradiction

/-- Witness for C9: the label `Unknown Disease` gets the default colour and
icon. -/
theorem presentation_mapper_table_witness :
    getResultColor "Unknown Disease" = "#667eea" ∧ getResultEmoji "Unknown Disease" = "🔍" :=
  presentation_mapper_table.2.2.2.2.2.2 "Unknown Disease" (by decide) (by decide) (by decide)

/-- C6, as the code has it: from every world the Clear handler leaves no selected
file, no preview, no result and no error, and it leaves `loading` and the
outstanding requests as they were; a click on the rendered Clear button runs
that handler. -/
theorem handleClear_resets_selection (w : World) :
    (handleClear w).state.selectedFile = none ∧
    (handleClear w).state.previewUrl = none ∧
    (handleClear w).state.prediction = Json.null ∧
    (handleClear w).state.error = none ∧
    (handleClear w).state.loading = w.state.loading ∧
    (handleClear w).inflight = w.inflight ∧
    (w.state.previewUrl ≠ none → step Event.clickClear w = handleClear w) := by
  refine ⟨rfl, rfl, rfl, rfl, rfl, rfl, ?_⟩
  intro h
  cases hp : w.state.previewUrl with
  | none => exact absurd hp h
  | some u => simp [step, hp]

/-- C6 fails while a submission is in flight: after selecting a PNG, clicking
Classify and clicking Clear, `loading` is still true and the request is still
outstanding. -/
theorem clear_while_submitting_keeps_loading :
    (run [Event.fileInputChange (some leafPng), Event.clickClassify, Event.clickClear]
      init).state.loading = true ∧
    (run [Event.fileInputChange (some leafPng), Event.clickClassify, Event.clickClear]
      init).inflight = [leafPng] := by
  decide

/-! ## Submission -/

/-- C3: `classifyImage` and the Classify click change nothing when no file is
selected; the click changes nothing while `loading`; a click that sends a
request comes from a world with a selected file and `loading` false and sends
exactly one; and after every sequence of events at most one request is
outstanding. -/
theorem submit_single_flight :
    (∀ w : World, w.state.selectedFile = none →
      classifyImage w = w ∧ step Event.clickClassify w = w) ∧
    (∀ w : World, w.state.loading = true → step Event.clickClassify w = w) ∧
    (∀ w : World, (step Event.clickClassify w).inflight ≠ w.inflight →
      ∃ f, w.state.selectedFile = some f ∧ w.state.loading = false ∧
        (step Event.clickClassify w).inflight = w.inflight ++ [f]) ∧
    (∀ events : List Event, (run events init).inflight.length ≤ 1) := by
  refine ⟨?_, ?_, ?_, ?_⟩
  · intro w h
    have hc : classifyImage w = w := by
      unfold classifyImage
      rw [h]
    refine ⟨hc, ?_⟩
    simp only [step]
    split
    · exact hc
    · rfl
  · intro w h
    simp [step, h]
  · intro w h
    simp only [step] at h ⊢
    split at h
    · rename_i hc
      simp only [Bool.and_eq_true, Bool.not_eq_true'] at hc
      rw [if_pos (by simp [hc])]
      cases hf : w.state.selectedFile with
      | none => simp [classifyImage, hf] at h
      | some f => exact ⟨f, rfl, hc.2, by simp [classifyImage, hf]⟩
    · exact absurd rfl h
  · intro events
    have h := (run_consistent events init init_consistent).1
    rw [h]
    split <;> simp

/-- Witness for C3: after a selection and three clicks on Classify at most one
request is outstanding. -/
theorem submit_single_flight_witness :
    (run [Event.fileInputChange (some leafPng), Event.clickClassify, Event.clickClassify,
      Event.clickClassify] init).inflight.length ≤ 1 :=
  submit_single_flight.2.2.2 _

/-- C4, as the code has it: in every reachable world with a request outstanding,
a response with a status outside 200-299 ends with `error` set to the fixed
text of line 68, the same text a rejected `fetch` gives, and with the thrown
`HTTP error! status: <status>` only on the console; `prediction` is null,
`loading` is false, no request is outstanding, and `selectedFile` and
`previewUrl` are as they were. -/
theorem http_error_sets_generic_message (events : List Event) (status : Nat)
    (body : Option Json)
    (hp : (run events init).inflight ≠ [])
    (hs : responseOk status = false) :
    (step (Event.settle (FetchOutcome.response status body)) (run events init)).state.error
      = some "Failed to classify image. Make sure the backend is running on http://localhost:8000" ∧
    (step (Event.settle (FetchOutcome.response status body)) (run events init)).state.error
      = (step (Event.settle FetchOutcome.rejected) (run events init)).state.error ∧
    (step (Event.settle (FetchOutcome.response status body)) (run events init)).console
      = (run events init).console ++ [Thrown.error s!"HTTP error! status: {status}"] ∧
    (step (Event.settle (FetchOutcome.response status body)) (run events init)).state.prediction
      = Json.null ∧
    (step (Event.settle (FetchOutcome.response status body)) (run events init)).state.loading
      = false ∧
    (step (Event.settle (FetchOutcome.response status body)) (run events init)).inflight = [] ∧
    (step (Event.settle (FetchOutcome.response status body)) (run events init)).state.selectedFile
      = (run events init).state.selectedFile ∧
    (step (Event.settle (FetchOutcome.response status body)) (run events init)).state.previewUrl
      = (run events init).state.previewUrl := by
  obtain ⟨h1, h2⟩ := run_consistent events init init_consistent
  generalize run events init = w at hp h1 h2
  cases hw : w.inflight with
  | nil => exact absurd hw hp
  | cons x rest =>
    rw [hw] at h1
    have hl : w.state.loading = true := by
      cases hl : w.state.loading <;> simp [hl] at h1
      rfl
    have hrest : rest = [] := by
      simpa [hl] using h1
    refine ⟨?_, ?_, ?_, ?_, ?_, ?_, ?_, ?_⟩
    · simp [step, hw, classifyImageResume, tryBlock, hs, classifyFailedMessage]
    · simp [step, hw, classifyImageResume, tryBlock, hs]
    · simp only [step, hw, classifyImageResume, tryBlock, hs]
      rfl
    · simp [step, hw, classifyImageResume, tryBlock, hs, h2 hl]
    · simp [step, hw, classifyImageResume, tryBlock, hs]
    · simp [step, hw, classifyImageResume, tryBlock, hs, hrest]
    · simp [step, hw, classifyImageResume, tryBlock, hs]
    · simp [step, hw, classifyImageResume, tryBlock, hs]

/-- Witness for C4: status 500 after a PNG was selected and Classify was
clicked. -/
theorem http_error_sets_generic_message_witness :
    (run [Event.fileInputChange (some leafPng), Event.clickClassify] init).inflight ≠ [] ∧
    responseOk 500 = false ∧
    (step (Event.settle (FetchOutcome.response 500 none))
      (run [Event.fileInputChange (some leafPng), Event.clickClassify] init)).console
      = [Thrown.error "HTTP error! status: 500"] :=
  ⟨by decide, by decide,
   (http_error_sets_generic_message
      [Event.fileInputChange (some leafPng), Event.clickClassify] 500 none
      (by decide) (by decide)).2.2.1⟩

set_option maxRecDepth 100000 in
/-- C4 fails in that the error message carries no HTTP error and no status: after
a PNG was selected and Classify was clicked, status 500, status 404 and a
rejected `fetch` all give the same `error`, the fixed text of line 68, in which
`500` does not occur. -/
theorem http_status_absent_from_error_message :
    (run [Event.fileInputChange (some leafPng), Event.clickClassify,
      Event.settle (FetchOutcome.response 500 none)] init).state.error
      = some "Failed to classify image. Make sure the backend is running on http://localhost:8000" ∧
    (run [Event.fileInputChange (some leafPng), Event.clickClassify,
      Event.settle (FetchOutcome.response 404 none)] init).state.error
      = (run [Event.fileInputChange (some leafPng), Event.clickClassify,
          Event.settle (FetchOutcome.response 500 none)] init).state.error ∧
    (run [Event.fileInputChange (some leafPng), Event.clickClassify,
      Event.settle FetchOutcome.rejected] init).state.error
      = (run [Event.fileInputChange (some leafPng), Event.clickClassify,
          Event.settle (FetchOutcome.response 500 none)] init).state.error ∧
    ¬ ("500".data <:+:
      "Failed to classify image. Make sure the backend is running on http://localhost:8000".data) := by
  refine ⟨by decide, by decide, by decide, by decide⟩

/-- C5 at a success body of the wrong shape: the object with the single field
`detail` does not have the expected shape; after status 200 with that body the
`catch` is not entered, `error` stays null, `loading` is false and `prediction`
holds the body; rendering the results section for it throws a `TypeError`
(`Object.entries` of `undefined`, line 200).  The sibling path, a body that
does not parse, sets the failure message and leaves `prediction` null. -/
theorem misshapen_body_stored_and_render_throws :
    specExpectedShape detailBody = false ∧
    (run [Event.fileInputChange (some leafPng), Event.clickClassify,
      Event.settle (FetchOutcome.response 200 (some detailBody))] init).state.prediction
      = Json.obj [("detail", Json.str "no leaf found")] ∧
    (run [Event.fileInputChange (some leafPng), Event.clickClassify,
      Event.settle (FetchOutcome.response 200 (some detailBody))] init).state.error = none ∧
    (run [Event.fileInputChange (some leafPng), Event.clickClassify,
      Event.settle (FetchOutcome.response 200 (some detailBody))] init).state.loading = false ∧
    (run [Event.fileInputChange (some leafPng), Event.clickClassify,
      Event.settle (FetchOutcome.response 200 (some detailBody))] init).console = [] ∧
    renderResults
      (run [Event.fileInputChange (some leafPng), Event.clickClassify,
        Event.settle (FetchOutcome.response 200 (some detailBody))] init).state.prediction
      = Except.error RenderError.typeError ∧
    (run [Event.fileInputChange (some leafPng), Event.clickClassify,
      Event.settle (FetchOutcome.response 200 none)] init).state.error
      = some "Failed to classify image. Make sure the backend is running on http://localhost:8000" ∧
    (run [Event.fileInputChange (some leafPng), Event.clickClassify,
      Event.settle (FetchOutcome.response 200 none)] init).state.prediction = Json.null :=
  ⟨rfl, rfl, rfl, rfl, rfl, rfl, rfl, rfl⟩

/-! ## Error and result -/

/-- C7, as the code has it: after every sequence of events, refused selections
included, an error and a result are not both held unless the error is the
invalid-file message of a refused selection; the failure message of a
submission is never held together with a result. -/
theorem error_result_exclusive_up_to_refusal (events : List Event) :
    ((run events init).state.error = none ∨
      (run events init).state.error = some "Please select a valid image file" ∨
      (run events init).state.prediction = Json.null) ∧
    ((run events init).state.error
        = some "Failed to classify image. Make sure the backend is running on http://localhost:8000" →
      (run events init).state.prediction = Json.null) := by
  have h := (run_exclusive events init init_consistent init_exclusive).2
  refine ⟨h, fun hf => ?_⟩
  rcases h with h | h | h
  · rw [h] at hf
    exact absurd hf (by decide)
  · rw [h] at hf
    exact absurd hf (by decide)
  · exact h

/-- Witness for C7: a run with a refused drop in the middle of a failed
submission; the failure message is held and no result is. -/
theorem error_result_exclusive_up_to_refusal_witness :
    (run [Event.drop (some leafPng), Event.clickClassify, Event.drop (some notesPdf),
      Event.settle (FetchOutcome.response 500 none)] init).state.prediction = Json.null :=
  (error_result_exclusive_up_to_refusal
    [Event.drop (some leafPng), Event.clickClassify, Event.drop (some notesPdf),
      Event.settle (FetchOutcome.response 500 none)]).2 (by decide)

/-- C7 fails after a refused selection: select a PNG, classify it successfully,
then drop a PDF; the error is set and the earlier result is still held. -/
theorem refused_selection_keeps_result :
    ¬ ((run [Event.fileInputChange (some leafPng), Event.clickClassify,
          Event.settle (FetchOutcome.response 200 (some healthyBody)),
          Event.drop (some notesPdf)] init).state.error = none ∨
       (run [Event.fileInputChange (some leafPng), Event.clickClassify,
          Event.settle (FetchOutcome.response 200 (some healthyBody)),
          Event.drop (some notesPdf)] init).state.prediction = Json.null) := by
  intro h
  rcases h with h | h
  · exact absurd h (by decide)
  · exact Json.noConfusion h

/-! ## Late settlement -/

/-- C8, as the code has it: whatever the world has become while the request was
outstanding, its settlement is applied: a parsed success body becomes
`prediction`, anything else sets `error`, `loading` becomes false, and
`selectedFile` and `previewUrl` are left as they are. -/
theorem settle_applies_unconditionally (w : World) (outcome : FetchOutcome)
    (hp : w.inflight ≠ []) :
    (∀ data, tryBlock outcome = Except.ok data →
      (step (Event.settle outcome) w).state.prediction = data ∧
      (step (Event.settle outcome) w).state.error = w.state.error) ∧
    (∀ err, tryBlock outcome = Except.error err →
      (step (Event.settle outcome) w).state.error = some classifyFailedMessage ∧
      (step (Event.settle outcome) w).state.prediction = w.state.prediction) ∧
    (step (Event.settle outcome) w).state.loading = false ∧
    (step (Event.settle outcome) w).state.selectedFile = w.state.selectedFile ∧
    (step (Event.settle outcome) w).state.previewUrl = w.state.previewUrl := by
  cases hw : w.inflight with
  | nil => exact absurd hw hp
  | cons x rest =>
    cases ht : tryBlock outcome with
    | ok data => simp [step, hw, classifyImageResume, ht]
    | error err => simp [step, hw, classifyImageResume, ht]

/-- Witness for C8: a success that arrives after Clear leaves the selection
empty. -/
theorem settle_applies_unconditionally_witness :
    (run [Event.fileInputChange (some leafPng), Event.clickClassify, Event.clickClear]
      init).inflight ≠ [] ∧
    (step (Event.settle (FetchOutcome.response 200 (some healthyBody)))
      (run [Event.fileInputChange (some leafPng), Event.clickClassify, Event.clickClear]
        init)).state.selectedFile = none :=
  ⟨by decide,
   (settle_applies_unconditionally
      (run [Event.fileInputChange (some leafPng), Event.clickClassify, Event.clickClear] init)
      (FetchOutcome.response 200 (some healthyBody)) (by decide)).2.2.2.1⟩

/-- C8 fails: select a PNG, click Classify, click Clear, then let the request
succeed; the world is not the cleared one, it holds the late result. -/
theorem late_success_after_clear_sets_result :
    (run [Event.fileInputChange (some leafPng), Event.clickClassify, Event.clickClear]
      init).state.prediction = Json.null ∧
    (run [Event.fileInputChange (some leafPng), Event.clickClassify, Event.clickClear,
      Event.settle (FetchOutcome.response 200 (some healthyBody))] init).state.selectedFile
      = none ∧
    ¬ ((run [Event.fileInputChange (some leafPng), Event.clickClassify, Event.clickClear,
          Event.settle (FetchOutcome.response 200 (some healthyBody))] init).state.prediction
          = Json.null ∧
       (run [Event.fileInputChange (some leafPng), Event.clickClassify, Event.clickClear,
          Event.settle (FetchOutcome.response 200 (some healthyBody))] init).state.error
          = none) := by
  refine ⟨rfl, rfl, ?_⟩
  intro h
  exact Json.noConfusion h.1

/-! ## Preview references -/

/-- C10, as the code has it: after every sequence of events no object URL has
been revoked, the live object URLs are exactly the ones minted, one for each
accepted selection, and `previewUrl`, when set, is the one minted last. -/
theorem preview_urls_never_revoked (events : List Event) :
    (run events init).blobs.revoked = [] ∧
    (run events init).blobs.live
      = List.range (events.countP Event.isAcceptedAcquire) ∧
    (∀ u, (run events init).state.previewUrl = some u →
      u + 1 = events.countP Event.isAcceptedAcquire) := by
  obtain ⟨h1, h2, h3⟩ := run_blobs events init
  have hlen : (run events init).blobs.entries.length
      = events.countP Event.isAcceptedAcquire := by
    rw [h2]
    simp [init]
  have hrev : (run events init).blobs.revoked = [] := by
    rw [h1]
    rfl
  refine ⟨hrev, ?_, ?_⟩
  · simp [BlobStore.live, hrev, hlen]
  · intro u hu
    have hlast : PreviewIsLast init := by
      intro v hv
      simp [init] at hv
    rw [← hlen]
    exact h3 hlast u hu

/-- C10 fails: after selecting a PNG and then a JPEG, two object URLs are live
and none was revoked; after selecting a PNG and clicking Clear, the URL of the
discarded selection is still live. -/
theorem replaced_preview_url_stays_live :
    ¬ ((run [Event.fileInputChange (some leafPng), Event.fileInputChange (some leafJpg)]
          init).blobs.live.length ≤ 1) ∧
    (run [Event.fileInputChange (some leafPng), Event.fileInputChange (some leafJpg)]
      init).blobs.revoked = [] ∧
    (run [Event.fileInputChange (some leafPng), Event.clickClear] init).state.previewUrl
      = none ∧
    (run [Event.fileInputChange (some leafPng), Event.clickClear] init).blobs.live = [0] := by
  decide

end PotatoDiseaseClassifier
